import Mathlib

/-!
Shallow embedding of the client-side session layer and resource gateway of
the dashboard: the enhanced authentication provider in
src/dashboard/src/authProvider.ts and the data provider in
src/dashboard/src/dataProvider.ts. Browser local storage is modelled as the
single auth slot the code reads and writes; JSON objects persisted there are
modelled as association lists of string fields, matching the object literals
the source stores.
-/

namespace Dashboard

/-- A parsed JSON object in local storage: an association list of
string-valued fields, mirroring the object literals the source persists. -/
abbrev Obj := List (String × String)

/-- The string found under the auth storage key, viewed through JSON.parse:
either unparseable text (the parse throws) or a parsed object. -/
inductive StoredVal where
  | junk
  | obj (fields : Obj)
deriving DecidableEq, Repr

/-- The auth slot of localStorage: absent (getItem returns null) or a stored
value. -/
abbrev Storage := Option StoredVal

/-- Truthiness of a string-valued field access in JavaScript: the key is
present and its value is a non-empty string. -/
def truthyField (o : Obj) (k : String) : Bool :=
  match o.lookup k with
  | some v => v ≠ ""
  | none => false

/-- The user object inside a successful (ok) response of the login
endpoint, per the fields the source reads. -/
structure ApiUser where
  username : String
  full_name : String
  email : String
  role : String
deriving DecidableEq, Repr

/-- The JSON body of a successful (ok) login response. -/
structure ApiLoginOk where
  user : ApiUser
  access_token : String
deriving DecidableEq, Repr

/-- Behaviour of the single fetch to the auth login route as observed by
login: the response is ok with a parsed body; the response is not ok and its
error body carries a detail field (the empty string standing for an absent or
falsy detail); or the fetch or a json() call throws with a message. -/
inductive LoginEnv where
  | ok (resp : ApiLoginOk)
  | notOk (detail : String)
  | fetchThrow (msg : String)
deriving DecidableEq, Repr

/-- The settled state of the promise login returns. -/
inductive LoginResult where
  | success
  | rejected (msg : String)
deriving DecidableEq, Repr

/-- The staticCredentials array of the enhanced login fallback:
(username, password, role, fullName). -/
def staticCredentials : List (String × String × String × String) :=
  [("admin", "admin", "admin", "Administrator"),
   ("user", "user123", "user", "Standard User"),
   ("test", "test", "viewer", "Test User")]

/-- staticCredentials.find with the predicate the source uses. -/
def findStatic (username password : String) :
    Option (String × String × String × String) :=
  staticCredentials.find? (fun c => c.1 == username && c.2.1 == password)

/-- The catch block of the enhanced login: try the static fallback; on a
match persist a synthesized record, otherwise reject with the most specific
message available. apiMsg is the message of the caught error. -/
def loginFallback (username password apiMsg ts : String) (now : Nat)
    (s : Storage) : LoginResult × Storage :=
  match findStatic username password with
  | some c =>
      let authData : Obj :=
        [("username", c.1),
         ("fullName", c.2.2.2),
         ("role", c.2.2.1),
         ("token", "static-jwt-token-" ++ toString now),
         ("loginTime", ts)]
      (.success, some (.obj authData))
  | none =>
      let errorMessage := if apiMsg ≠ "" then apiMsg else "Invalid username or password"
      (.rejected errorMessage, s)

/-- authProvider.login (enhanced). ts models new Date().toISOString() and
now models Date.now(); s is the auth storage slot before the call. Returns
the settled result and the storage after the call. -/
def login (username password : String) (env : LoginEnv) (ts : String)
    (now : Nat) (s : Storage) : LoginResult × Storage :=
  match env with
  | .ok resp =>
      let authData : Obj :=
        [("username", resp.user.username),
         ("fullName", resp.user.full_name),
         ("email", resp.user.email),
         ("role", resp.user.role),
         ("token", resp.access_token),
         ("loginTime", ts)]
      (.success, some (.obj authData))
  | .notOk detail =>
      loginFallback username password
        (if detail ≠ "" then detail else "Login failed") ts now s
  | .fetchThrow msg =>
      loginFallback username password msg ts now s

/-- authProvider.logout (enhanced): unconditionally removes the auth slot. -/
def logout (_s : Storage) : Unit × Storage := ((), none)

/-- Result of an auth check promise: resolved, or rejected with a message. -/
inductive CheckRes where
  | ok
  | fail (msg : String)
deriving DecidableEq, Repr

/-- authProvider.checkError (enhanced): on 401 or 403 remove the auth slot
and reject; otherwise resolve leaving storage alone. -/
def checkError (status : Nat) (s : Storage) : CheckRes × Storage :=
  if status = 401 ∨ status = 403 then
    (.fail "Authentication required", none)
  else
    (.ok, s)

/-- authProvider.checkAuth (enhanced): resolve when a parsed record with a
truthy token field is stored; remove the slot when the stored string fails
to parse; reject in every other case. -/
def checkAuth (s : Storage) : CheckRes × Storage :=
  match s with
  | some (.obj o) =>
      if truthyField o "token" then (.ok, s)
      else (.fail "Not authenticated", s)
  | some .junk => (.fail "Not authenticated", none)
  | none => (.fail "Not authenticated", none)

/-- Result of getPermissions: resolved with the role field (absent when the
record lacks one, as the source resolves with an undefined role), or
rejected. -/
inductive PermRes where
  | ok (role : Option String)
  | fail (msg : String)
deriving DecidableEq, Repr

/-- authProvider.getPermissions (enhanced): resolve with the role field of a
parsed record; reject otherwise; storage is never written. -/
def getPermissions (s : Storage) : PermRes × Storage :=
  match s with
  | some (.obj o) => (.ok (o.lookup "role"), s)
  | some .junk => (.fail "No permissions available", s)
  | none => (.fail "No permissions available", s)

/-- Result of getIdentity: resolved with the id and display-name projection,
or rejected. -/
inductive IdRes where
  | ok (id : Option String) (fullName : Option String)
  | fail (msg : String)
deriving DecidableEq, Repr

/-- authProvider.getIdentity (enhanced): resolve with id and fullName (the
username when fullName is absent or empty) of a parsed record; reject
otherwise; storage is never written. -/
def getIdentity (s : Storage) : IdRes × Storage :=
  match s with
  | some (.obj o) =>
      let fn :=
        match o.lookup "fullName" with
        | some v => if v ≠ "" then some v else o.lookup "username"
        | none => o.lookup "username"
      (.ok (o.lookup "username") fn, s)
  | some .junk => (.fail "No user identity available", s)
  | none => (.fail "No user identity available", s)

/-- The Authorization header value attached by the httpClient of
dataProvider.ts, as a function of the auth storage slot: Bearer plus the
token field when the stored record parses and the field is truthy, nothing
otherwise (including when the parse fails). -/
def authHeader (s : Storage) : Option String :=
  match s with
  | some (.obj o) =>
      match o.lookup "token" with
      | some t => if t ≠ "" then some ("Bearer " ++ t) else none
      | none => none
  | _ => none

/-- The error thrown by a failed base data-provider call: its status field
(absent on pure transport failures) and the detail field of its body. -/
structure HttpErr where
  status : Option Nat
  bodyDetail : Option String
deriving DecidableEq, Repr

/-- What the gateway overrides deliver to the caller on a failing call: a
fresh Error with a domain message, or the caught error rethrown as is. -/
inductive GatewayError where
  | wrapped (msg : String)
  | raw (e : HttpErr)
deriving DecidableEq, Repr

/-- Whether a delivered error is a fresh domain Error rather than the raw
caught one. -/
def isWrapped : GatewayError → Bool
  | .wrapped _ => true
  | .raw _ => false

/-- The includes method of JavaScript strings, on a fixed non-empty
pattern. -/
def containsSub (s pat : String) : Bool := (s.splitOn pat).length ≠ 1

/-- The catch block of dataProvider.create. -/
def createErr (resource : String) (e : HttpErr) : GatewayError :=
  if resource = "users" then
    if e.status = some 403 then
      .wrapped "Administrator access required to create users. Please login as an admin."
    else if e.status = some 401 then
      .wrapped "Authentication required. Please login to create users."
    else if e.status = some 409 then
      .wrapped "Username or email already exists. Please choose different credentials."
    else if e.status = some 422 then
      .wrapped "Validation error: Please check all required fields are filled correctly."
    else if e.status = some 500 then
      .wrapped "Server error: Please try again or contact support."
    else .raw e
  else .raw e

/-- The catch block of dataProvider.update. -/
def updateErr (resource : String) (e : HttpErr) : GatewayError :=
  if resource = "users" then
    if e.status = some 403 then
      .wrapped "Administrator access required to modify users."
    else if e.status = some 401 then
      .wrapped "Authentication required. Please login to modify users."
    else if e.status = some 409 then
      .wrapped "Username or email already exists for another user."
    else if e.status = some 404 then
      .wrapped "User not found."
    else .raw e
  else .raw e

/-- The catch block of dataProvider.delete. -/
def deleteErr (resource : String) (e : HttpErr) : GatewayError :=
  if resource = "users" then
    if e.status = some 403 then
      .wrapped "Administrator access required to delete users."
    else if e.status = some 401 then
      .wrapped "Authentication required. Please login to delete users."
    else if e.status = some 400 then
      match e.bodyDetail with
      | some d =>
          if containsSub d "Cannot delete" then .wrapped d
          else .wrapped "Cannot delete this user."
      | none => .wrapped "Cannot delete this user."
    else .raw e
  else .raw e

/-- The catch block of dataProvider.getList. -/
def getListErr (resource : String) (e : HttpErr) : GatewayError :=
  if resource = "users" then
    if e.status = some 401 then
      .wrapped "Authentication required to view users. Please login."
    else if e.status = some 403 then
      .wrapped "Access denied. You do not have permission to view users."
    else .raw e
  else .raw e

/-- The catch block of dataProvider.getOne. -/
def getOneErr (resource : String) (e : HttpErr) : GatewayError :=
  if resource = "users" then
    if e.status = some 401 then
      .wrapped "Authentication required to view user details."
    else if e.status = some 403 then
      .wrapped "Access denied. You do not have permission to view this user."
    else .raw e
  else .raw e

/-- All fields of a fully populated Session are present: principal
identifier, display name, role, bearer credential, creation timestamp. -/
def completeRecord (o : Obj) : Prop :=
  (o.lookup "username").isSome = true ∧
  (o.lookup "fullName").isSome = true ∧
  (o.lookup "role").isSome = true ∧
  (o.lookup "token").isSome = true ∧
  (o.lookup "loginTime").isSome = true

/-- The Session invariant of the spec: the persisted Session does not exist,
or it is a parsed, fully populated record. -/
def SessionInv (s : Storage) : Prop :=
  s = none ∨ ∃ o, s = some (.obj o) ∧ completeRecord o

/-- C1: for a credential attempt outside the hard-coded fallback allow-list
that the remote endpoint rejects with a non-ok response, login rejects with
an error message, and the auth storage after the call equals the storage
before it, so no Session is written. -/
theorem login_rejected_preserves_storage
    (u p d ts : String) (now : Nat) (s : Storage)
    (h : findStatic u p = none) :
    (∃ m, (login u p (.notOk d) ts now s).1 = .rejected m) ∧
    (login u p (.notOk d) ts now s).2 = s := by
  simp only [login, loginFallback, h]
  exact ⟨⟨_, rfl⟩, trivial⟩

/-- Witness for C1 at the concrete attempt (alice, pw) with remote detail
text, starting from empty storage. -/
theorem login_rejected_preserves_storage_witness :
    (∃ m, (login "alice" "pw" (.notOk "Invalid credentials") "t0" 0 none).1 =
        .rejected m) ∧
    (login "alice" "pw" (.notOk "Invalid credentials") "t0" 0 none).2 = none :=
  login_rejected_preserves_storage "alice" "pw" "Invalid credentials" "t0" 0 none
    (by decide)

/-- C2: checkError fails and clears the stored record exactly when the
status is 401 or 403, and succeeds leaving storage unchanged on every other
status. -/
theorem checkError_behavior (status : Nat) (s : Storage) :
    checkError status s =
      if status = 401 ∨ status = 403
      then (CheckRes.fail "Authentication required", none)
      else (CheckRes.ok, s) := rfl

/-- C3: checkAuth succeeds exactly when a parsed record with a non-empty
token field is stored; the stored value is removed exactly when an
unparseable (malformed) one was present, and is kept in every other case. -/
theorem checkAuth_behavior (s : Storage) :
    ((checkAuth s).1 = CheckRes.ok ↔
      ∃ o, s = some (.obj o) ∧ truthyField o "token" = true) ∧
    (checkAuth s).2 = (if s = some .junk then none else s) := by
  rcases s with _ | (_ | o)
  · simp [checkAuth]
  · simp [checkAuth]
  · by_cases h : truthyField o "token" <;> simp [checkAuth, h]

/-- C4: the httpClient of the gateway attaches an Authorization header
exactly when the stored Session parses and holds a non-empty token field,
and the header carries that stored token as a Bearer credential. -/
theorem authHeader_iff (s : Storage) (h : String) :
    authHeader s = some h ↔
      ∃ o t, s = some (.obj o) ∧ o.lookup "token" = some t ∧ t ≠ "" ∧
        h = "Bearer " ++ t := by
  rcases s with _ | (_ | o)
  · simp [authHeader]
  · simp [authHeader]
  · match ht : o.lookup "token" with
    | none => simp [authHeader, ht]
    | some t =>
        by_cases he : t = "" <;>
          simp [authHeader, ht, he, eq_comm]

/-- Helper: the synthesized fallback token is never the empty string. -/
theorem staticToken_ne_empty (now : Nat) :
    "static-jwt-token-" ++ toString now ≠ "" := by
  intro h
  have hd := congrArg String.data h
  simp [String.data_append] at hd

/-- Helper: exact wrapping condition of the create override. -/
theorem createErr_cases (resource : String) (e : HttpErr) :
    (isWrapped (createErr resource e) = true ↔
      resource = "users" ∧ (e.status = some 401 ∨ e.status = some 403 ∨
        e.status = some 409 ∨ e.status = some 422 ∨ e.status = some 500)) ∧
    (isWrapped (createErr resource e) = false ↔ createErr resource e = .raw e) := by
  unfold createErr
  split_ifs <;> simp_all [isWrapped]

/-- Helper: exact wrapping condition of the update override. -/
theorem updateErr_cases (resource : String) (e : HttpErr) :
    (isWrapped (updateErr resource e) = true ↔
      resource = "users" ∧ (e.status = some 401 ∨ e.status = some 403 ∨
        e.status = some 404 ∨ e.status = some 409)) ∧
    (isWrapped (updateErr resource e) = false ↔ updateErr resource e = .raw e) := by
  unfold updateErr
  split_ifs <;> simp_all [isWrapped]

/-- Helper: exact wrapping condition of the delete override. -/
theorem deleteErr_cases (resource : String) (e : HttpErr) :
    (isWrapped (deleteErr resource e) = true ↔
      resource = "users" ∧ (e.status = some 400 ∨ e.status = some 401 ∨
        e.status = some 403)) ∧
    (isWrapped (deleteErr resource e) = false ↔ deleteErr resource e = .raw e) := by
  obtain ⟨st, bd⟩ := e
  unfold deleteErr
  rcases bd with _ | d <;>
    split_ifs <;> simp_all [isWrapped, containsSub]
  split_ifs <;> simp_all [isWrapped]

/-- Helper: exact wrapping condition of the getList override. -/
theorem getListErr_cases (resource : String) (e : HttpErr) :
    (isWrapped (getListErr resource e) = true ↔
      resource = "users" ∧ (e.status = some 401 ∨ e.status = some 403)) ∧
    (isWrapped (getListErr resource e) = false ↔ getListErr resource e = .raw e) := by
  unfold getListErr
  split_ifs <;> simp_all [isWrapped]

/-- Helper: exact wrapping condition of the getOne override. -/
theorem getOneErr_cases (resource : String) (e : HttpErr) :
    (isWrapped (getOneErr resource e) = true ↔
      resource = "users" ∧ (e.status = some 401 ∨ e.status = some 403)) ∧
    (isWrapped (getOneErr resource e) = false ↔ getOneErr resource e = .raw e) := by
  unfold getOneErr
  split_ifs <;> simp_all [isWrapped]

/-- C5 as stated is refuted at a concrete input: a create on resource
drivers failing with status 409 delivers the raw transport error object to
the caller, not a wrapped domain error. -/
theorem create_drivers_409_raw :
    createErr "drivers" ⟨some 409, none⟩ = .raw ⟨some 409, none⟩ ∧
    isWrapped (createErr "drivers" ⟨some 409, none⟩) = false := by decide

/-- C5 amended: a failing gateway call delivers a wrapped domain error
exactly for resource users at the statuses each override enumerates
(create: 401, 403, 409, 422, 500; update: 401, 403, 404, 409; delete: 400,
401, 403; getList and getOne: 401, 403); every other failure is delivered
as the raw caught error. -/
theorem gateway_error_mapping (resource : String) (e : HttpErr) :
    ((isWrapped (createErr resource e) = true ↔
        resource = "users" ∧ (e.status = some 401 ∨ e.status = some 403 ∨
          e.status = some 409 ∨ e.status = some 422 ∨ e.status = some 500)) ∧
      (isWrapped (createErr resource e) = false ↔
        createErr resource e = .raw e)) ∧
    ((isWrapped (updateErr resource e) = true ↔
        resource = "users" ∧ (e.status = some 401 ∨ e.status = some 403 ∨
          e.status = some 404 ∨ e.status = some 409)) ∧
      (isWrapped (updateErr resource e) = false ↔
        updateErr resource e = .raw e)) ∧
    ((isWrapped (deleteErr resource e) = true ↔
        resource = "users" ∧ (e.status = some 400 ∨ e.status = some 401 ∨
          e.status = some 403)) ∧
      (isWrapped (deleteErr resource e) = false ↔
        deleteErr resource e = .raw e)) ∧
    ((isWrapped (getListErr resource e) = true ↔
        resource = "users" ∧ (e.status = some 401 ∨ e.status = some 403)) ∧
      (isWrapped (getListErr resource e) = false ↔
        getListErr resource e = .raw e)) ∧
    ((isWrapped (getOneErr resource e) = true ↔
        resource = "users" ∧ (e.status = some 401 ∨ e.status = some 403)) ∧
      (isWrapped (getOneErr resource e) = false ↔
        getOneErr resource e = .raw e)) :=
  ⟨createErr_cases resource e, updateErr_cases resource e,
    deleteErr_cases resource e, getListErr_cases resource e,
    getOneErr_cases resource e⟩

/-- C6 as stated is refuted at a concrete input: a remote success whose
access token is the empty string makes login succeed, yet the immediately
following checkAuth fails. -/
theorem login_empty_token_checkAuth_fails :
    (login "alice" "pw"
        (.ok ⟨⟨"alice", "Alice", "alice@example.com", "admin"⟩, ""⟩)
        "t0" 0 none).1 = .success ∧
    (checkAuth (login "alice" "pw"
        (.ok ⟨⟨"alice", "Alice", "alice@example.com", "admin"⟩, ""⟩)
        "t0" 0 none).2).1 ≠ CheckRes.ok := by decide

/-- C6 amended: after every successful login whose stored bearer token is
non-empty — which covers every fallback success, and every remote success
whose access token is non-empty — checkAuth succeeds and getPermissions
returns exactly the role field the login call recorded in the persisted
Session (the remote user role on the remote path, the static role on the
fallback path). -/
theorem login_success_checkAuth_getPermissions
    (u p ts : String) (env : LoginEnv) (now : Nat) (s : Storage)
    (hsucc : (login u p env ts now s).1 = .success)
    (htok : ∀ resp, env = .ok resp → resp.access_token ≠ "") :
    ∃ o, (login u p env ts now s).2 = some (.obj o) ∧
      (checkAuth (login u p env ts now s).2).1 = CheckRes.ok ∧
      (getPermissions (login u p env ts now s).2).1 = PermRes.ok (o.lookup "role") ∧
      ((∃ resp, env = .ok resp ∧ o.lookup "role" = some resp.user.role) ∨
       (∃ c, findStatic u p = some c ∧ o.lookup "role" = some c.2.2.1)) := by
  match env with
  | .ok resp =>
      have hne := htok resp rfl
      exact ⟨[("username", resp.user.username), ("fullName", resp.user.full_name),
              ("email", resp.user.email), ("role", resp.user.role),
              ("token", resp.access_token), ("loginTime", ts)],
        rfl, by simp [login, checkAuth, truthyField, List.lookup, hne],
        rfl, Or.inl ⟨resp, rfl, by simp [List.lookup]⟩⟩
  | .notOk d =>
      match hf : findStatic u p with
      | some c =>
          refine ⟨[("username", c.1), ("fullName", c.2.2.2), ("role", c.2.2.1),
              ("token", "static-jwt-token-" ++ toString now), ("loginTime", ts)],
            ?_, ?_, ?_, Or.inr ⟨c, rfl, ?_⟩⟩ <;>
            simp [login, loginFallback, hf, checkAuth, getPermissions,
              truthyField, List.lookup, staticToken_ne_empty now]
      | none =>
          simp [login, loginFallback, hf] at hsucc
  | .fetchThrow m =>
      match hf : findStatic u p with
      | some c =>
          refine ⟨[("username", c.1), ("fullName", c.2.2.2), ("role", c.2.2.1),
              ("token", "static-jwt-token-" ++ toString now), ("loginTime", ts)],
            ?_, ?_, ?_, Or.inr ⟨c, rfl, ?_⟩⟩ <;>
            simp [login, loginFallback, hf, checkAuth, getPermissions,
              truthyField, List.lookup, staticToken_ne_empty now]
      | none =>
          simp [login, loginFallback, hf] at hsucc

/-- Witness for the amended C6 at the concrete fallback login of admin with
an unreachable endpoint. -/
theorem login_success_checkAuth_getPermissions_witness :
    ∃ o, (login "admin" "admin" (.fetchThrow "network down") "t0" 7 none).2 =
        some (.obj o) ∧
      (checkAuth (login "admin" "admin" (.fetchThrow "network down") "t0" 7 none).2).1 =
        CheckRes.ok ∧
      (getPermissions (login "admin" "admin" (.fetchThrow "network down") "t0" 7 none).2).1 =
        PermRes.ok (o.lookup "role") ∧
      ((∃ resp, LoginEnv.fetchThrow "network down" = .ok resp ∧
          o.lookup "role" = some resp.user.role) ∨
       (∃ c, findStatic "admin" "admin" = some c ∧
          o.lookup "role" = some c.2.2.1)) :=
  login_success_checkAuth_getPermissions "admin" "admin" "t0"
    (.fetchThrow "network down") 7 none (by decide)
    (fun resp h => nomatch h)

/-- C7: a create on resource users failing with status 409 delivers a
wrapped Conflict message saying the username or email already exists,
whatever the error body held, and never the raw error. -/
theorem create_users_409_conflict (d : Option String) :
    createErr "users" ⟨some 409, d⟩ =
      .wrapped "Username or email already exists. Please choose different credentials." := by
  simp [createErr]

/-- C8: login as admin with password admin when the fetch throws succeeds
through the static fallback and persists a record whose role field is
admin, from any prior storage state. -/
theorem login_admin_fallback (m ts : String) (now : Nat) (s : Storage) :
    (login "admin" "admin" (.fetchThrow m) ts now s).1 = .success ∧
    ∃ o, (login "admin" "admin" (.fetchThrow m) ts now s).2 = some (.obj o) ∧
      o.lookup "role" = some "admin" := by
  have hf : findStatic "admin" "admin" =
      some ("admin", "admin", "admin", "Administrator") := by decide
  refine ⟨?_, ?_⟩ <;>
    simp [login, loginFallback, hf, List.lookup]

/-- C9: session atomicity. login leaves storage untouched or writes in one
step a record carrying all five Session fields; logout and checkError clear
the whole slot or leave it untouched; checkAuth clears the whole slot or
leaves it untouched; getPermissions and getIdentity never write. Hence no
operation mutates an individual field of an existing Session, and each one
preserves the invariant that the Session is absent or fully populated. -/
theorem session_atomicity (u p ts : String) (env : LoginEnv)
    (now status : Nat) (s : Storage) :
    ((login u p env ts now s).2 = s ∨
      ∃ o, (login u p env ts now s).2 = some (.obj o) ∧ completeRecord o) ∧
    (logout s).2 = none ∧
    ((checkError status s).2 = s ∨ (checkError status s).2 = none) ∧
    ((checkAuth s).2 = s ∨ (checkAuth s).2 = none) ∧
    (getPermissions s).2 = s ∧
    (getIdentity s).2 = s := by
  refine ⟨?_, rfl, ?_, ?_, ?_, ?_⟩
  · match env with
    | .ok resp =>
        exact Or.inr ⟨_, rfl, by simp [completeRecord, List.lookup]⟩
    | .notOk d =>
        match hf : findStatic u p with
        | some c =>
            refine Or.inr ⟨[("username", c.1), ("fullName", c.2.2.2),
                ("role", c.2.2.1),
                ("token", "static-jwt-token-" ++ toString now),
                ("loginTime", ts)], ?_, ?_⟩ <;>
              simp [login, loginFallback, hf, completeRecord, List.lookup]
        | none =>
            simp [login, loginFallback, hf]
    | .fetchThrow m =>
        match hf : findStatic u p with
        | some c =>
            refine Or.inr ⟨[("username", c.1), ("fullName", c.2.2.2),
                ("role", c.2.2.1),
                ("token", "static-jwt-token-" ++ toString now),
                ("loginTime", ts)], ?_, ?_⟩ <;>
              simp [login, loginFallback, hf, completeRecord, List.lookup]
        | none =>
            simp [login, loginFallback, hf]
  · unfold checkError
    split_ifs <;> simp
  · rcases s with _ | (_ | o)
    · simp [checkAuth]
    · simp [checkAuth]
    · by_cases h : truthyField o "token" <;> simp [checkAuth, h]
  · rcases s with _ | (_ | o) <;> rfl
  · rcases s with _ | (_ | o) <;> rfl

/-- C10: any credential attempt present in the static fallback allow-list
logs in successfully and persists a Session record, whatever the remote
endpoint does — an ok response, a rejecting non-ok response, or a thrown
fetch — because the remote-success path persists on its own and every
API-path failure transfers control to the fallback check. -/
theorem static_login_always_succeeds (u p ts : String) (env : LoginEnv)
    (now : Nat) (s : Storage) (c : String × String × String × String)
    (h : findStatic u p = some c) :
    (login u p env ts now s).1 = .success ∧
    ∃ o, (login u p env ts now s).2 = some (.obj o) := by
  match env with
  | .ok resp => exact ⟨rfl, _, rfl⟩
  | .notOk d => refine ⟨?_, ?_⟩ <;> simp [login, loginFallback, h]
  | .fetchThrow m => refine ⟨?_, ?_⟩ <;> simp [login, loginFallback, h]

/-- Witness for C10 at the concrete attempt (admin, admin) while the remote
endpoint is reachable and rejects it with a detail message. -/
theorem static_login_always_succeeds_witness :
    (login "admin" "admin" (.notOk "Invalid credentials") "t0" 3 none).1 =
      .success ∧
    ∃ o, (login "admin" "admin" (.notOk "Invalid credentials") "t0" 3 none).2 =
      some (.obj o) :=
  static_login_always_succeeds "admin" "admin" "t0"
    (.notOk "Invalid credentials") 3 none
    ("admin", "admin", "admin", "Administrator") (by decide)

end Dashboard
